import Mathlib

/-!
Verification development for the DB_MCP_server repository.

The definitions below are shallow embeddings of the Python source:

* `SqlV` embeds `src/db_mcp/sql_validator.py` (the SQL safety validator);
* `Pool` embeds the registry logic of `src/db_mcp/connection_pool.py`;
* `Agent` embeds the Plan-Execute-Replan controller of
  `src/agent/data_analyst_agent.py`;
* `Srv` embeds the request-context globals and middleware of
  `src/db_mcp/server.py` plus the dispatcher gate of `src/db_mcp/tool.py`;
* `Tool` embeds the error mapping and LIMIT handling of
  `src/tools/execute_sql_tool.py`, the request construction of
  `src/tools/search_knowledge_tool.py`, and the telemetry recorders of
  `src/db/analytics_config.py` / `src/db/analytics_service.py`.

Strings are modelled as `List Char`; the Python `\w` and `\s` character
classes are modelled on their ASCII fragment (`Char.isAlphanum`/`'_'` and
the six ASCII whitespace characters), which is exact for every ASCII input.
-/

namespace SqlV

/-- The six ASCII characters matched by the Python `str.strip`, `\s`, etc. -/
def pyWhitespace : List Char := [' ', '\t', '\n', '\r', '\x0b', '\x0c']

/-- ASCII fragment of Python whitespace. -/
def pyIsSpace (c : Char) : Bool := pyWhitespace.contains c

/-- ASCII fragment of the Python regex class `\w`. -/
def isWordChar (c : Char) : Bool := c.isAlphanum || c = '_'

/-- Python `str.strip()` on the ASCII whitespace fragment. -/
def stripL (l : List Char) : List Char :=
  ((l.dropWhile pyIsSpace).reverse.dropWhile pyIsSpace).reverse

/-- Python `str.rstrip()`. -/
def rstripL (l : List Char) : List Char :=
  (l.reverse.dropWhile pyIsSpace).reverse

/-- Python `str.upper()` (ASCII fragment). -/
def upperL (l : List Char) : List Char := l.map Char.toUpper

/-- Python `str.lower()` (ASCII fragment). -/
def lowerL (l : List Char) : List Char := l.map Char.toLower

/-- Number of occurrences of a character, Python `str.count`. -/
def countChar (c : Char) (l : List Char) : Nat :=
  (l.filter (fun x => x = c)).length

/-- Does `pat` occur at the head of `l`?  Python `str.startswith`. -/
def startsWithL : List Char → List Char → Bool
  | [], _ => true
  | _ :: _, [] => false
  | p :: ps, c :: cs => p = c && startsWithL ps cs

/-- Contiguous-substring search, the Python `pat in s` test. -/
def containsSub (pat : List Char) : List Char → Bool
  | [] => startsWithL pat []
  | c :: rest => startsWithL pat (c :: rest) || containsSub pat rest

/-- Drop leading whitespace, the `\s*` of the regexes below. -/
def skipWs (l : List Char) : List Char := l.dropWhile pyIsSpace

/-- After a `;`: `\s*` then at least one `\w` (tail of regex `;\s*\w+`). -/
def wsThenWord (l : List Char) : Bool :=
  match skipWs l with
  | c :: _ => isWordChar c
  | [] => false

/-- Search for regex `;\s*\w+` (`INJECTION_PATTERNS[0]`). -/
def semicolonCmd : List Char → Bool
  | [] => false
  | c :: rest => (c = ';' && wsThenWord rest) || semicolonCmd rest

/-- Tail test for regex `--[\r\n]`: a `-` then `\r` or `\n`. -/
def startsDashNl : List Char → Bool
  | '-' :: d :: _ => d = '\r' || d = '\n'
  | _ => false

/-- Search for regex `--[\r\n]` (`INJECTION_PATTERNS[1]`). -/
def dashDashNl : List Char → Bool
  | [] => false
  | c :: rest => (c = '-' && startsDashNl rest) || dashDashNl rest

/-- Is the head of `l` the `/` closing a `*/`? -/
def startsSlash : List Char → Bool
  | '/' :: _ => true
  | _ => false

/-- After `/*`: scan for `*/` with no intervening newline (`.` of the
pattern does not match `\n`). -/
def afterBlockOpen : List Char → Bool
  | [] => false
  | c :: rest =>
      if c = '\n' then false
      else (c = '*' && startsSlash rest) || afterBlockOpen rest

/-- Is the head of `l` the `*` of an opening `/*` whose comment closes? -/
def startsStarThenClose : List Char → Bool
  | '*' :: rest => afterBlockOpen rest
  | _ => false

/-- Search for regex `/\*.*\*/` (`INJECTION_PATTERNS[2]`). -/
def blockComment : List Char → Bool
  | [] => false
  | c :: rest => (c = '/' && startsStarThenClose rest) || blockComment rest

/-- Tail of the boolean-injection regexes: `\s*[=<>]`. -/
def compAfterWs (l : List Char) : Bool :=
  match skipWs l with
  | c :: _ => c = '=' || c = '<' || c = '>'
  | [] => false

/-- The `[\w<q>]+\s*[=<>]` tail: at least one word-or-quote character,
then `\s*[=<>]`, with the backtracking choice points of `+`. -/
def wordRun (q : Char) : List Char → Bool
  | [] => false
  | c :: rest => (isWordChar c || c = q) && (compAfterWs rest || wordRun q rest)

/-- After the quote and `\s*`: the `(OR|AND)` alternation (IGNORECASE),
then `\s*` and `wordRun`. -/
def orAndTail (q : Char) (l : List Char) : Bool :=
  match l with
  | c1 :: c2 :: rest =>
      (if c1.toUpper = 'O' && c2.toUpper = 'R' then wordRun q (skipWs rest) else false) ||
      (match rest with
       | c3 :: rest2 =>
           if c1.toUpper = 'A' && c2.toUpper = 'N' && c3.toUpper = 'D' then
             wordRun q (skipWs rest2)
           else false
       | [] => false)
  | _ => false

/-- Search for regex `<q>\s*(OR|AND)\s*[\w<q>]+\s*[=<>]`
(`INJECTION_PATTERNS[3]` with `q` the single-quote character and
`INJECTION_PATTERNS[4]` with `q` the double-quote character). -/
def quoteBool (q : Char) : List Char → Bool
  | [] => false
  | c :: rest => (c = q && orAndTail q (skipWs rest)) || quoteBool q rest

/-- Python `re.sub` with pattern `\s+` and replacement a single space:
collapse every whitespace run to one space. -/
def collapseWs : List Char → List Char
  | [] => []
  | c :: rest =>
      if pyIsSpace c then
        match collapseWs rest with
        | ' ' :: t => ' ' :: t
        | t => ' ' :: t
      else c :: collapseWs rest

/-- Regex `^[\s(]*(\w+)` has a match: after dropping leading whitespace
and opening parentheses, a word character follows. -/
def leadingWordExists (l : List Char) : Bool :=
  match l.dropWhile (fun c => pyIsSpace c || c = '(') with
  | c :: _ => isWordChar c
  | [] => false

/-- Word-boundary occurrence of `kw` at the head of `l`: `kw` is a prefix
and the following character (if any) is not a word character. -/
def wordAtHere (kw : List Char) (l : List Char) : Bool :=
  startsWithL kw l &&
    (match l.drop kw.length with
     | c :: _ => !(isWordChar c)
     | [] => true)

/-- Scan for a `\b kw \b` occurrence; `prevIsWord` records whether the
character before the current position is a word character. -/
def containsWordFrom (kw : List Char) (prevIsWord : Bool) : List Char → Bool
  | [] => false
  | c :: rest =>
      ((!prevIsWord) && wordAtHere kw (c :: rest)) ||
        containsWordFrom kw (isWordChar c) rest

/-- Search for regex `\b kw \b` (word-boundary keyword occurrence). -/
def containsWord (kw : List Char) (l : List Char) : Bool :=
  containsWordFrom kw false l

/-- The `DANGEROUS_KEYWORDS` of `sql_validator.py`, in source order. -/
def DANGEROUS_KEYWORDS : List String :=
  ["DROP", "DELETE", "INSERT", "UPDATE", "TRUNCATE", "ALTER",
   "CREATE", "GRANT", "REVOKE", "EXECUTE", "CALL", "SHOW",
   "DESCRIBE", "EXPLAIN", "HANDLER", "LOAD", "LOCK",
   "REPLACE", "INTO", "VALUES", "SET"]

/-- The `ALLOWED_PREFIXES` of `sql_validator.py`. -/
def ALLOWED_PREFIXES : List String := ["SELECT", "SELECT(", "WITH"]

/-- Strict-mode `dangerous_functions` of `validate_sql`. -/
def dangerous_functions : List String :=
  ["LOAD_FILE", "INTO OUTFILE", "INTO DUMPFILE", "SYSTEM", "EXEC", "EVAL", "SHELL"]

/-- Newline normalisation of `normalize_sql`: `replace("\r\n", "\n")`
followed by `replace("\r", "\n")`. -/
def normNewlines : List Char → List Char
  | [] => []
  | c :: rest =>
      if c = '\r' then
        (if rest.head? = some '\n' then [] else ['\n']) ++ normNewlines rest
      else c :: normNewlines rest

/-- The `normalize_sql`: strip, then normalise line endings. -/
def normalize_sql (l : List Char) : List Char :=
  if l.isEmpty then [] else normNewlines (stripL l)

/-- Does the rstripped statement end in `;`? (`sql.rstrip().endswith(';')`). -/
def endsWithSemicolon (l : List Char) : Bool :=
  match (rstripL l).getLast? with
  | some c => c = ';'
  | none => false

/-- The `check_sql_structure`: paren balance, single-quote parity, and no
interior semicolon. -/
def check_sql_structure (sql : List Char) : Bool × String :=
  if countChar '(' sql ≠ countChar ')' sql then
    (false, "SQL 括号不匹配")
  else if countChar '\'' sql % 2 ≠ 0 then
    (false, "SQL 单引号不匹配")
  else if sql.contains ';' && !(endsWithSemicolon sql) then
    (false, "检测到多语句执行（分号不在末尾）")
  else (true, "")

/-- Any of the five `INJECTION_PATTERNS` matches. -/
def hasInjectionShape (sql : List Char) : Bool :=
  semicolonCmd sql || dashDashNl sql || blockComment sql ||
    quoteBool '\'' sql || quoteBool '"' sql

/-- The uppercased, whitespace-collapsed, stripped statement
(`sql_normalized` of `check_for_injection`). -/
def sqlNormalizedUpper (sql : List Char) : List Char :=
  stripL (collapseWs (upperL sql))

/-- The `allowed_start` of `check_for_injection`: the collapsed uppercase
statement starts with one of `ALLOWED_PREFIXES`. -/
def allowedStart (sql : List Char) : Bool :=
  ALLOWED_PREFIXES.any (fun p => startsWithL p.toList (sqlNormalizedUpper sql))

/-- A `DANGEROUS_KEYWORDS` member occurs as a word in the uppercased
statement. -/
def hasDangerousKeyword (sql : List Char) : Bool :=
  DANGEROUS_KEYWORDS.any (fun kw => containsWord kw.toList (upperL sql))

/-- The `check_for_injection`: injection patterns, then the allowed-start
check, then the dangerous-keyword scan. -/
def check_for_injection (sql : List Char) : Bool × String :=
  if hasInjectionShape sql then
    (true, "检测到可能的 SQL 注入模式")
  else if !allowedStart sql && leadingWordExists (sqlNormalizedUpper sql) then
    (true, "仅允许 SELECT 查询")
  else
    match DANGEROUS_KEYWORDS.find? (fun kw => containsWord kw.toList (upperL sql)) with
    | some kw => (true, "检测到危险关键字: " ++ kw)
    | none => (false, "")

/-- Strict-mode extras of `validate_sql`: dangerous function substrings,
statement length, and nesting depth. -/
def strictChecks (normalized : List Char) : Bool × String :=
  match dangerous_functions.find? (fun f => containsSub f.toList (upperL normalized)) with
  | some f => (false, "检测到危险函数: " ++ f)
  | none =>
      if normalized.length > 10000 then
        (false, "SQL 语句过长（超过 10000 字符）")
      else if countChar '(' normalized > 50 then
        (false, "子查询嵌套过深")
      else (true, "")

/-- The `validate_sql(sql, strict_mode)` of `sql_validator.py`. -/
def validate_sql (sqlStr : String) (strict_mode : Bool := true) : Bool × String :=
  if sqlStr.toList.isEmpty || (stripL sqlStr.toList).isEmpty then
    (false, "SQL 查询不能为空")
  else if (normalize_sql sqlStr.toList).isEmpty then
    (false, "SQL 查询为空")
  else if !(check_sql_structure (normalize_sql sqlStr.toList)).1 then
    (false, (check_sql_structure (normalize_sql sqlStr.toList)).2)
  else if (check_for_injection (normalize_sql sqlStr.toList)).1 then
    (false, (check_for_injection (normalize_sql sqlStr.toList)).2)
  else if strict_mode then strictChecks (normalize_sql sqlStr.toList)
  else (true, "")

/-- The `sanitize_limit`: clamp to `[1, 10000]`, default 100 when absent. -/
def sanitize_limit : Option Int → Int
  | none => 100
  | some n => if n ≤ 0 then 1 else if n > 10000 then 10000 else n

end SqlV

namespace Pool

/-- One entry of the `_pools` registry of `connection_pool.py`: the pool
key and its `last_used` timestamp (the engine object itself is irrelevant
to the registry invariants and is omitted). -/
structure PoolEntry where
  key : String
  lastUsed : Nat
deriving DecidableEq, Repr

/-- Registry state: the `_pools` dict in insertion order, plus a logical
clock standing for `time.time()` (strictly monotonic across calls). -/
structure PoolState where
  pools : List PoolEntry
  clock : Nat
deriving DecidableEq, Repr

/-- The `_make_pool_key`: `"host:port@username@database"` (password excluded). -/
def make_pool_key (host : String) (port : Nat) (username database : String) : String :=
  host ++ ":" ++ toString port ++ "@" ++ username ++ "@" ++ database

/-- Default of `DB_POOL_MAX_SIZE` (`_get_int_env("DB_POOL_MAX_SIZE", 50)`). -/
def DB_POOL_MAX_SIZE : Nat := 50

/-- Key membership (`pool_key in _pools`). -/
def findPool (k : String) (l : List PoolEntry) : Bool :=
  l.any (fun e => e.key = k)

/-- Update `last_used` of the entry with key `k`. -/
def touchPool (k : String) (t : Nat) (l : List PoolEntry) : List PoolEntry :=
  l.map (fun e => if e.key = k then { e with lastUsed := t } else e)

/-- Keys of the registry entries. -/
def poolKeys (l : List PoolEntry) : List String := l.map (fun e => e.key)

/-- Insertion step of sorting by `last_used` ascending. -/
def insertByLastUsed (e : PoolEntry) : List PoolEntry → List PoolEntry
  | [] => [e]
  | x :: xs =>
      if e.lastUsed ≤ x.lastUsed then e :: x :: xs else x :: insertByLastUsed e xs

/-- The `sorted(_pools.items(), key=lambda x: x[1]["last_used"])`, modelled as
an insertion sort (the properties proved below only use that the result is
a permutation sorted by `last_used`, which any correct sort satisfies). -/
def sortByLastUsed : List PoolEntry → List PoolEntry
  | [] => []
  | x :: xs => insertByLastUsed x (sortByLastUsed xs)

/-- Keys selected for closing by `_evict_old_pools`: the
`len(_pools) - DB_POOL_MAX_SIZE` least-recently-used entries. -/
def evictVictims (maxSize : Nat) (l : List PoolEntry) : List String :=
  poolKeys ((sortByLastUsed l).take (l.length - maxSize))

/-- The `_evict_old_pools`: no-op when `len(_pools) <= DB_POOL_MAX_SIZE`, else
delete the victim keys from the registry. -/
def evict_old_pools (maxSize : Nat) (l : List PoolEntry) : List PoolEntry :=
  if l.length ≤ maxSize then l
  else l.filter (fun e => !((evictVictims maxSize l).contains e.key))

/-- The `get_engine` as it acts on the registry.  First critical section:
reuse-and-touch, or create when below the cap; otherwise leave the lock,
run `_evict_old_pools`, and re-enter to create the missing entry. -/
def get_engine (maxSize : Nat) (k : String) (st : PoolState) : PoolState :=
  let t := st.clock
  if findPool k st.pools then
    { pools := touchPool k t st.pools, clock := t + 1 }
  else if st.pools.length < maxSize then
    { pools := st.pools ++ [⟨k, t⟩], clock := t + 1 }
  else
    { pools := evict_old_pools maxSize st.pools ++ [⟨k, t⟩], clock := t + 1 }

/-- Empty registry at startup. -/
def initialPoolState : PoolState := { pools := [], clock := 0 }

/-- A sequence of `get_engine` calls from the empty registry. -/
def runGetEngines (maxSize : Nat) (keys : List String) : PoolState :=
  keys.foldl (fun st k => get_engine maxSize k st) initialPoolState

end Pool

namespace Tool

/-- The `ErrorCode` enumeration of `db_mcp/errors.py`. -/
inductive ErrorCode where
  | UNKNOWN_ERROR
  | INVALID_PARAMS
  | MISSING_REQUIRED_PARAM
  | TIMEOUT
  | DB_CONNECTION_ERROR
  | DB_QUERY_ERROR
  | DB_TIMEOUT
  | DB_CONFIG_ERROR
  | SQL_VALIDATION_ERROR
  | MISSING_DB_CONFIG
deriving DecidableEq, Repr

/-- Integer values of the error codes (`class ErrorCode(int, Enum)`). -/
def errorCodeValue : ErrorCode → Nat
  | .UNKNOWN_ERROR => 1000
  | .INVALID_PARAMS => 1001
  | .MISSING_REQUIRED_PARAM => 1002
  | .TIMEOUT => 1003
  | .DB_CONNECTION_ERROR => 3000
  | .DB_QUERY_ERROR => 3001
  | .DB_TIMEOUT => 3002
  | .DB_CONFIG_ERROR => 3003
  | .SQL_VALIDATION_ERROR => 4002
  | .MISSING_DB_CONFIG => 5000

/-- Outcome of `execute_query` as observed by the `try` block of `execute_sql_query`: rows, a `SQLAlchemyError`, or any other exception. -/
inductive ExecOutcome where
  | ok (rowCount : Nat)
  | sqlAlchemyError (msg : String)
  | otherError (msg : String)
deriving DecidableEq, Repr

/-- The `SQLAlchemyError` branch of `execute_sql_query`: lowercase the
message; `timeout`/`time` substring chooses `DB_TIMEOUT`, else
`connection` chooses `DB_CONNECTION_ERROR`, else `DB_QUERY_ERROR`. -/
def classify_db_error (msg : String) : ErrorCode :=
  if SqlV.containsSub ("timeout").toList (SqlV.lowerL msg.toList) ||
       SqlV.containsSub ("time").toList (SqlV.lowerL msg.toList) then
    .DB_TIMEOUT
  else if SqlV.containsSub ("connection").toList (SqlV.lowerL msg.toList) then
    .DB_CONNECTION_ERROR
  else
    .DB_QUERY_ERROR

/-- Error code attached to the envelope of the execution `try` block
(`none` on success). -/
def sqlToolErrorCode : ExecOutcome → Option ErrorCode
  | .ok _ => none
  | .sqlAlchemyError m => some (classify_db_error m)
  | .otherError _ => some .UNKNOWN_ERROR

/-- Python `str.rstrip(';')`: drop trailing semicolons. -/
def rstripSemis (l : List Char) : List Char :=
  (l.reverse.dropWhile (fun c => c = ';')).reverse

/-- The SQL text actually executed by `execute_sql_query` after step 3
(LIMIT handling): `sql = sql.strip()`; if `"LIMIT"` does not occur in
`sql.upper()`, run `f"{sql.rstrip(';')} LIMIT {limit}"`, else run `sql`
unchanged. -/
def executedSqlText (sql : String) (limit : Option Int) : String :=
  if SqlV.containsSub ("LIMIT").toList (SqlV.upperL (SqlV.stripL sql.toList)) then
    String.mk (SqlV.stripL sql.toList)
  else
    String.mk (Tool.rstripSemis (SqlV.stripL sql.toList)) ++ " LIMIT " ++
      toString (SqlV.sanitize_limit limit)

/-- JSON scalar values appearing in the knowledge-tool payload. -/
inductive PVal where
  | s (v : String)
  | n (v : Int)
deriving DecidableEq, Repr

/-- The outgoing HTTP request built by `search_knowledge_graph`. -/
structure KgRequest where
  endpoint : String
  payload : List (String × PVal)
  timeoutSecs : Nat
deriving DecidableEq, Repr

/-- Python `str.rstrip('/')`. -/
def rstripSlash (s : String) : String :=
  String.mk ((s.toList.reverse.dropWhile (fun c => c = '/')).reverse)

/-- Default `mode` parameter of `search_knowledge_graph`. -/
def KG_DEFAULT_MODE : String := "mix"

/-- Single POST of `search_knowledge_graph`: `none` when the query is
blank (the tool returns an error without any HTTP call); otherwise the
endpoint `<url>/query`, the body `{"query": query.strip(), "mode": mode}`
(the `top_k` argument is deliberately not sent), and `timeout=600`. -/
def knowledge_request (query : String) (mode : String) (_topK : Int)
    (lightragUrl : String) : Option KgRequest :=
  if (SqlV.stripL query.toList).isEmpty then none
  else
    some { endpoint := rstripSlash lightragUrl ++ "/query",
           payload := [("query", .s (String.mk (SqlV.stripL query.toList))),
                       ("mode", .s mode)],
           timeoutSecs := 600 }

end Tool

namespace Agent

/-- The `MAX_ITERATIONS` of `data_analyst_agent.py`. -/
def MAX_ITERATIONS : Nat := 15

/-- The `Act` sum type produced by the replanner LLM. -/
inductive AgentAct where
  | response (text : String)
  | plan (steps : List String)
deriving DecidableEq, Repr

/-- Which code path set the final `response` (ghost instrumentation; it
does not influence any transition). -/
inductive RespSource where
  | plannerError
  | replannerResponse
  | fallbackLimit
  | fallbackReplanError
deriving DecidableEq, Repr

/-- The `PlanExecute` state of the controller.  `response` carries the
ghost `RespSource` tag alongside the response text. -/
structure PlanExecute where
  input : String
  plan : List String
  stepIndex : Nat
  pastSteps : List (String × String)
  response : Option (RespSource × String)
  errorLog : List String
deriving DecidableEq, Repr

/-- Environment for one run: the single planner answer and, per
invocation index, the answers of the executor sub-agent and of the
replanner LLM; `.error` models a raised exception. -/
structure AgentOracle where
  plannerResult : Except String (List String)
  executorResult : Nat → Except String String
  replannerResult : Nat → Except String AgentAct

/-- Numbered rendering of `past_steps` used by the fallback response. -/
def renderPastSteps : Nat → List (String × String) → String
  | _, [] => ""
  | i, (step, result) :: rest =>
      "\n### 步骤 " ++ toString i ++ ": " ++ step ++ "\n" ++ result ++
        renderPastSteps (i + 1) rest

/-- Rendering of the accumulated error log used by the fallback response. -/
def renderErrors : List String → String
  | [] => ""
  | e :: rest => "\n- " ++ e ++ renderErrors rest

/-- The `_generate_fallback_response`: a `⚠️`-headed summary built from
`past_steps` and `error_log` only (no LLM involved). -/
def generate_fallback_response (s : PlanExecute) (reason : String) : String :=
  "⚠️ " ++ reason ++
    (if s.pastSteps.isEmpty then "" else
      "\n## 已执行步骤及结果：" ++ renderPastSteps 1 s.pastSteps) ++
    (if s.errorLog.isEmpty then "" else
      "\n## 执行过程中的错误：" ++ renderErrors s.errorLog)

/-- The `plan_step`: ask the planner once; on failure set `response` to the
planner-error text and leave the plan empty. -/
def plan_step (o : AgentOracle) (s : PlanExecute) : PlanExecute :=
  match o.plannerResult with
  | .ok steps => { s with plan := steps, stepIndex := 0 }
  | .error e =>
      { s with plan := [], stepIndex := 0,
               response := some (.plannerError, "规划阶段出错，无法生成执行计划: " ++ e),
               errorLog := s.errorLog ++ ["[planner] " ++ e] }

/-- The `execute_step` (invocation number `n`): guard against an
out-of-range `step_index`, then run the sub-agent; both success and
failure append exactly one entry to `past_steps`, failure also advances
`step_index` (fail-forward) and logs the error. -/
def execute_step (o : AgentOracle) (n : Nat) (s : PlanExecute) : PlanExecute :=
  if s.plan.length ≤ s.stepIndex then
    { s with pastSteps := s.pastSteps ++ [("(无更多步骤)", "所有计划步骤已执行完毕")] }
  else
    let task := s.plan.getD s.stepIndex ""
    match o.executorResult n with
    | .ok result =>
        { s with pastSteps := s.pastSteps ++ [(task, result)],
                 stepIndex := s.stepIndex + 1 }
    | .error e =>
        { s with pastSteps := s.pastSteps ++ [(task, "⚠️ 执行出错: " ++ e)],
                 stepIndex := s.stepIndex + 1,
                 errorLog := s.errorLog ++ ["[executor] " ++ e] }

/-- Reason text of the iteration-cap fallback. -/
def maxIterReason : String :=
  "已达到最大执行次数(" ++ toString MAX_ITERATIONS ++ ")，基于已有信息自动生成回答"

/-- The `replan_step` (invocation number `n`): when `len(past_steps)` has
reached `MAX_ITERATIONS`, synthesize the fallback without consulting the
LLM; otherwise ask the replanner and either finalize (`Response`),
install the new plan, or synthesize the fallback on a provider error. -/
def replan_step (o : AgentOracle) (n : Nat) (s : PlanExecute) : PlanExecute :=
  if MAX_ITERATIONS ≤ s.pastSteps.length then
    { s with response := some (.fallbackLimit, generate_fallback_response s maxIterReason) }
  else
    match o.replannerResult n with
    | .ok (.response t) => { s with response := some (.replannerResponse, t) }
    | .ok (.plan steps) => { s with plan := steps, stepIndex := 0 }
    | .error e =>
        { s with response := some (.fallbackReplanError,
            generate_fallback_response s ("重规划阶段出错(" ++ e ++ ")，基于已有信息生成回答")),
                 errorLog := s.errorLog ++ ["[replanner] " ++ e] }

/-- The `should_end` after a replan: stop on a response, an empty plan, or an
exhausted plan. -/
def shouldEnd (s : PlanExecute) : Bool :=
  s.response.isSome || s.plan.isEmpty || s.plan.length ≤ s.stepIndex

/-- The `agent → replan → (agent | END)` cycle of the compiled graph,
with `fuel` bounding the number of executor iterations the framework
would allow before `GraphRecursionError`; returns `none` exactly on
recursion-limit abort.  `execCount` counts executor invocations. -/
def agentLoop (o : AgentOracle) : Nat → PlanExecute → Nat → Option (PlanExecute × Nat)
  | 0, _, _ => none
  | fuel + 1, s, execCount =>
      let s1 := execute_step o execCount s
      let s2 := replan_step o execCount s1
      if shouldEnd s2 then some (s2, execCount + 1)
      else agentLoop o fuel s2 (execCount + 1)

/-- Executor iterations admitted by `recursion_limit = 2*MAX_ITERATIONS +
10` graph steps: one planner step plus two steps (agent, replan) per
iteration. -/
def RECURSION_ITER_BUDGET : Nat := (2 * MAX_ITERATIONS + 10 - 1) / 2

/-- Default answer of `run_agent` when the final state carries no
response (`final_state.get("response", ...)`). -/
def defaultAnswer : String := "未能生成回答，请重试。"

/-- Answer returned by `run_agent` when `GraphRecursionError` is caught. -/
def recursionLimitAnswer : String :=
  "⚠️ 执行超过上限(" ++ toString MAX_ITERATIONS ++ "轮)，已自动终止。请尝试简化问题后重新提问。"

/-- Observable result of one `run_agent` call: the returned string, the
number of executor invocations, the final `response` field (with its
ghost source tag), the final `past_steps` length, and whether the
framework recursion limit fired. -/
structure AgentRunResult where
  answer : String
  execCount : Nat
  finalResponse : Option (RespSource × String)
  pastStepsCount : Nat
  recursionLimitHit : Bool
deriving DecidableEq, Repr

/-- Initial controller state for one request. -/
def initState (userInput : String) : PlanExecute :=
  { input := userInput, plan := [], stepIndex := 0, pastSteps := [],
    response := none, errorLog := [] }

/-- The `final_state.get("response", default)`: the returned answer text. -/
def respText : Option (RespSource × String) → String
  | some (_, t) => t
  | none => defaultAnswer

/-- The `run_agent`: plan once; stop immediately on a planner response or an
empty plan, otherwise iterate `agentLoop` under the framework budget. -/
def run_agent (o : AgentOracle) (userInput : String) : AgentRunResult :=
  if (plan_step o (initState userInput)).response.isSome ||
       (plan_step o (initState userInput)).plan.isEmpty then
    { answer := respText (plan_step o (initState userInput)).response,
      execCount := 0,
      finalResponse := (plan_step o (initState userInput)).response,
      pastStepsCount := (plan_step o (initState userInput)).pastSteps.length,
      recursionLimitHit := false }
  else
    match agentLoop o RECURSION_ITER_BUDGET (plan_step o (initState userInput)) 0 with
    | some (sf, n) =>
        { answer := respText sf.response, execCount := n, finalResponse := sf.response,
          pastStepsCount := sf.pastSteps.length, recursionLimitHit := false }
    | none =>
        { answer := recursionLimitAnswer, execCount := RECURSION_ITER_BUDGET,
          finalResponse := none, pastStepsCount := 0, recursionLimitHit := true }

end Agent

namespace Srv

/-- A resolved connection record from the `db_mapping` table. -/
structure ConnConfig where
  host : String
  port : Nat
  username : String
  password : String
  database : String
deriving DecidableEq, Repr

/-- The module-level globals of `db_mcp/server.py` holding the
"current request" destination: `_current_db_key: str = "default"` and
`_current_db_config: Dict = {}`.  They are plain globals shared by every
connection served by the worker, not context variables. -/
structure ServerGlobals where
  currentDbKey : String
  currentDbConfig : Option ConnConfig
deriving DecidableEq, Repr

/-- Initial values of the two globals. -/
def initialGlobals : ServerGlobals :=
  { currentDbKey := "default", currentDbConfig := none }

/-- The `DatabaseConfigMiddleware.dispatch` as it acts on the globals: when a
`db` query parameter is present, `set_current_db_key` is called, and
`set_current_db_config` is called only when the mapping resolves (on a
miss the previous config is left in place). -/
def middleware_dispatch (mapping : String → Option ConnConfig)
    (queryDb : Option String) (g : ServerGlobals) : ServerGlobals :=
  match queryDb with
  | none => g
  | some dbKey =>
      let g1 := { g with currentDbKey := dbKey }
      match mapping dbKey with
      | some cfg => { g1 with currentDbConfig := some cfg }
      | none => g1

/-- Interleaved transport events in one worker: a middleware dispatch for
connection `conn` carrying `?db=dbKey`, or a request on `conn` reading
the globals (as `data_agent` does). -/
inductive ConnEvent where
  | middleware (conn : Nat) (dbKey : String)
  | request (conn : Nat)
deriving DecidableEq, Repr

/-- Run a schedule of events, recording for every request event the
connection it belongs to and the global key/config it observes. -/
def runEvents (mapping : String → Option ConnConfig) :
    List ConnEvent → ServerGlobals → List (Nat × String × Option ConnConfig)
  | [], _ => []
  | .middleware _c k :: evs, g =>
      runEvents mapping evs (middleware_dispatch mapping (some k) g)
  | .request c :: evs, g =>
      (c, g.currentDbKey, g.currentDbConfig) :: runEvents mapping evs g

/-- State effect of a prefix of middleware events (request events leave
the globals unchanged). -/
def applyEvents (mapping : String → Option ConnConfig) :
    List ConnEvent → ServerGlobals → ServerGlobals
  | [], g => g
  | .middleware _ k :: evs, g =>
      applyEvents mapping evs (middleware_dispatch mapping (some k) g)
  | .request _ :: evs, g => applyEvents mapping evs g

/-- Is the event a middleware dispatch? -/
def isMiddlewareEvent : ConnEvent → Bool
  | .middleware _ _ => true
  | .request _ => false

/-- The `UserSessionLog` rows (by `session_id`) in the control database,
plus a counter standing for `uuid.uuid4()` freshness. -/
structure AnalyticsState where
  sessions : List String
  nextId : Nat
deriving DecidableEq, Repr

/-- Control database with no analytics sessions. -/
def initialAnalytics : AnalyticsState := { sessions := [], nextId := 0 }

/-- The `AnalyticsService.create_session`: unconditionally insert one fresh
`UserSessionLog` row; the client IP, user agent and db key are stored in
the row but play no part in any lookup (there is no dedup and no
reference count). -/
def create_session (_clientIp _userAgent _dbKey : Option String)
    (st : AnalyticsState) : String × AnalyticsState :=
  let sid := "session-" ++ toString st.nextId
  (sid, { sessions := st.sessions ++ [sid], nextId := st.nextId + 1 })

/-- Analytics-session effect of one `DatabaseConfigMiddleware.dispatch`
on an `/sse` connect: the dispatch body only manipulates the destination
globals and calls the next handler; it contains no session handling, so
the control-database state is returned unchanged. -/
def middleware_session_effect (st : AnalyticsState) : AnalyticsState := st

/-- The missing-destination answer of the `data_agent` tool
(abbreviated to its fixed first line plus the interpolated key). -/
def missing_db_message (dbKey : String) : String :=
  "错误：未配置数据库连接。请在 URL 中指定数据库标识符。当前数据库标识符: " ++ dbKey

/-- Answer of the `data_agent` tool for an empty query. -/
def empty_query_message : String := "错误：查询内容不能为空"

/-- How a `data_agent` invocation is routed before any telemetry, planner
or tool work. -/
inductive DataAgentOutcome where
  | emptyQueryError (msg : String)
  | missingDbError (msg : String)
  | agentRun (query : String) (dbKey : String)
deriving DecidableEq, Repr

/-- The guard sequence at the top of `data_agent` in `db_mcp/tool.py`:
reject an empty query; then reject when the destination read from the
server globals is empty or the literal `"default"`; only otherwise
proceed to `run_agent` with the query and key. -/
def data_agent_dispatch (query : String) (dbKey : String) : DataAgentOutcome :=
  if query = "" then .emptyQueryError empty_query_message
  else if dbKey = "" || dbKey = "default" then .missingDbError (missing_db_message dbKey)
  else .agentRun query dbKey

end Srv

namespace Telemetry

/-- Outcome of one write against the control database: `.ok` or a raised
exception carrying a message. -/
abbrev WriteOutcome := Except String Unit

/-- The `try/except Exception: pass` shape shared by `log_tool_call`,
`log_sql_query` and `log_error` in `db/analytics_config.py`: when
analytics is enabled, perform the write and swallow any exception. -/
def recorderCall (enabled : Bool) (w : WriteOutcome) : Except String Unit :=
  if !enabled then .ok ()
  else
    match w with
    | .ok u => .ok u
    | .error _ => .ok ()

/-- The `log_agent_start`: on any exception inside its `try` it returns `""`
instead of propagating; otherwise it returns the fresh request id. -/
def log_agent_start (enabled : Bool) (freshId : String) (w : WriteOutcome) : String :=
  if !enabled then ""
  else
    match w with
    | .ok _ => freshId
    | .error _ => ""

/-- The writes attempted by `log_agent_end`: the per-tool statistics
query (with its own inner `try`), the `AgentExecutionLog` insert, and the
session-counter update. -/
structure AgentEndWrites where
  statsQuery : Except String (List (String × Nat))
  executionWrite : WriteOutcome
  sessionUpdate : WriteOutcome
deriving Repr

/-- The `log_agent_end`: the statistics query failure falls back to the
context-variable counters, and the outer `try/except` swallows every
remaining failure; the recorder never raises. -/
def log_agent_end (enabled : Bool) (w : AgentEndWrites) : Except String Unit :=
  if !enabled then .ok ()
  else
    let _toolCounts :=
      match w.statsQuery with
      | .ok stats => stats
      | .error _ => []
    match w.executionWrite with
    | .error _ => .ok ()
    | .ok _ =>
        match w.sessionUpdate with
        | .error _ => .ok ()
        | .ok _ => .ok ()

/-- Telemetry writes attempted by one `execute_sql_query` call. -/
structure SqlToolWrites where
  toolCall : WriteOutcome
  sqlQuery : WriteOutcome
  errorRec : WriteOutcome
deriving Repr

/-- The success/error envelope text of `execute_sql_query` as a function
of the execution outcome alone. -/
def sqlToolEnvelope : Tool.ExecOutcome → String
  | .ok n => "success: " ++ toString n ++ " rows"
  | .sqlAlchemyError m =>
      "error " ++ toString (Tool.errorCodeValue (Tool.classify_db_error m)) ++ ": " ++ m
  | .otherError m =>
      "error " ++ toString (Tool.errorCodeValue Tool.ErrorCode.UNKNOWN_ERROR) ++ ": " ++ m

/-- The tail of `execute_sql_query` after validation: compute the
envelope, run the recorder calls of the taken branch, and return the
envelope.  Typed in `Except` so that a propagating recorder exception
would surface as `.error`. -/
def sql_tool_run (enabled : Bool) (outcome : Tool.ExecOutcome)
    (w : SqlToolWrites) : Except String String := do
  match outcome with
  | .ok n =>
      let _ ← recorderCall enabled w.toolCall
      let _ ← recorderCall enabled w.sqlQuery
      pure (sqlToolEnvelope (.ok n))
  | .sqlAlchemyError m =>
      let _ ← recorderCall enabled w.toolCall
      let _ ← recorderCall enabled w.sqlQuery
      let _ ← recorderCall enabled w.errorRec
      pure (sqlToolEnvelope (.sqlAlchemyError m))
  | .otherError m =>
      let _ ← recorderCall enabled w.toolCall
      let _ ← recorderCall enabled w.sqlQuery
      let _ ← recorderCall enabled w.errorRec
      pure (sqlToolEnvelope (.otherError m))

/-- The telemetry-relevant skeleton of `data_agent`: record the start,
obtain the agent answer, record the end, and return the answer.  A
propagating recorder exception would surface as `.error`. -/
def data_agent_run (enabled : Bool) (agentAnswer : String) (freshId : String)
    (startWrite : WriteOutcome) (endWrites : AgentEndWrites) : Except String String := do
  let _requestId := log_agent_start enabled freshId startWrite
  let result := agentAnswer
  let _ ← log_agent_end enabled endWrites
  pure result

end Telemetry

/-! Concrete fixtures used by the witnesses and counterexamples below. -/

/-- Oracle whose replanner always answers with an empty `Plan`. -/
def emptyReplanOracle : Agent.AgentOracle :=
  { plannerResult := .ok ["第一步"],
    executorResult := fun _ => .ok ("done"),
    replannerResult := fun _ => .ok (.plan []) }

/-- Oracle whose replanner finalizes after the first step. -/
def oneStepOracle : Agent.AgentOracle :=
  { plannerResult := .ok ["查询行数"],
    executorResult := fun _ => .ok ("共 3 行"),
    replannerResult := fun _ => .ok (.response ("答案：3 行")) }

/-- A controller state that has already consumed all fifteen iterations. -/
def fullIterState : Agent.PlanExecute :=
  { input := "q", plan := ["s"], stepIndex := 0,
    pastSteps := List.replicate 15 ("s", "r"), response := none, errorLog := [] }

/-- Mapping rows used by the context-interference scenario. -/
def exCfgX : Srv.ConnConfig :=
  { host := "hx", port := 3306, username := "ux", password := "px", database := "dx" }

/-- Second mapping row of the scenario. -/
def exCfgY : Srv.ConnConfig :=
  { host := "hy", port := 3306, username := "uy", password := "py", database := "dy" }

/-- Two-destination mapping store. -/
def exInterferenceMapping : String → Option Srv.ConnConfig := fun k =>
  if k = "x" then some exCfgX
  else if k = "y" then some exCfgY
  else none

/-- Fifty-one pairwise distinct destinations for the pool registry. -/
def fiftyOnePoolKeys : List String :=
  (List.range 51).map (fun i => Pool.make_pool_key ("h" ++ toString i) 3306 ("root") ("db"))

/-- A three-entry registry over a cap of one, for the LRU witness. -/
def lruWitnessPools : List Pool.PoolEntry :=
  [⟨"a", 5⟩, ⟨"b", 3⟩, ⟨"c", 7⟩]

/-! Helper lemmas shared across claims. -/

theorem startsWithL_of_append (p q l : List Char)
    (h : SqlV.startsWithL (p ++ q) l = true) : SqlV.startsWithL p l = true := by
  induction p generalizing l with
  | nil => rfl
  | cons c cs ih =>
      cases l with
      | nil => simp [SqlV.startsWithL] at h
      | cons d ds =>
          simp [SqlV.startsWithL] at h ⊢
          exact ⟨h.1, ih ds h.2⟩

theorem containsSub_of_append (p q l : List Char)
    (h : SqlV.containsSub (p ++ q) l = true) : SqlV.containsSub p l = true := by
  induction l with
  | nil =>
      simp [SqlV.containsSub] at h ⊢
      exact startsWithL_of_append p q [] h
  | cons c cs ih =>
      simp [SqlV.containsSub] at h ⊢
      rcases h with h | h
      · exact Or.inl (startsWithL_of_append p q (c :: cs) h)
      · exact Or.inr (ih h)

theorem recorderCall_ok (enabled : Bool) (w : Telemetry.WriteOutcome) :
    Telemetry.recorderCall enabled w = .ok () := by
  cases w <;> cases enabled <;> rfl

theorem log_agent_end_ok (enabled : Bool) (w : Telemetry.AgentEndWrites) :
    Telemetry.log_agent_end enabled w = .ok () := by
  rcases w with ⟨sq, ew, su⟩
  cases sq <;> cases ew <;> cases su <;> cases enabled <;> rfl

/-! Claim theorems. -/

/-- C9: the user-visible result of the SQL tool and of `data_agent` is
independent of every telemetry write outcome: each recorder swallows its
failures, so the `Except`-typed pipelines always return `.ok` with the
envelope or answer computed from the non-telemetry inputs alone. -/
theorem telemetry_noninterference (enabled : Bool) (outcome : Tool.ExecOutcome)
    (w : Telemetry.SqlToolWrites) (agentAnswer freshId : String)
    (startWrite : Telemetry.WriteOutcome) (endWrites : Telemetry.AgentEndWrites) :
    Telemetry.sql_tool_run enabled outcome w = .ok (Telemetry.sqlToolEnvelope outcome) ∧
    Telemetry.data_agent_run enabled agentAnswer freshId startWrite endWrites =
      .ok agentAnswer := by
  constructor
  · rcases w with ⟨w1, w2, w3⟩
    cases outcome <;> cases w1 <;> cases w2 <;> cases w3 <;> cases enabled <;> rfl
  · rcases endWrites with ⟨sq, ew, su⟩
    cases startWrite <;> cases sq <;> cases ew <;> cases su <;> cases enabled <;> rfl

/-- C10 counterexample: when the query is empty and the destination is
`"default"`, `data_agent` returns the empty-query error, not the
missing-destination message the claim promises for every invocation with
an empty/default destination. -/
theorem data_agent_empty_query_counterexample :
    Srv.data_agent_dispatch ("") ("default") = .emptyQueryError Srv.empty_query_message ∧
    Srv.data_agent_dispatch ("") ("default") ≠
      .missingDbError (Srv.missing_db_message ("default")) := by
  constructor
  · rfl
  · intro h
    simp [Srv.data_agent_dispatch] at h

/-- C10 (amended): for every invocation with a non-empty query whose
destination is empty or the literal `"default"`, `data_agent` returns the
instructive missing-destination message without reaching `run_agent`; and
no invocation with destination `"default"` ever reaches `run_agent`, so a
mapping named `default` is unusable through `data_agent`. -/
theorem data_agent_missing_destination (q k : String)
    (hq : ¬ q = "") (hk : k = "" ∨ k = "default") :
    Srv.data_agent_dispatch q k = .missingDbError (Srv.missing_db_message k) ∧
    ∀ q0 q2 k2 : String, Srv.data_agent_dispatch q0 ("default") ≠ .agentRun q2 k2 := by
  constructor
  · rcases hk with h | h <;> simp [Srv.data_agent_dispatch, hq, h]
  · intro q0 q2 k2
    by_cases h0 : q0 = "" <;> simp [Srv.data_agent_dispatch, h0]

/-- C10 witness: the amended theorem applied at a concrete query. -/
theorem data_agent_missing_destination_witness :
    Srv.data_agent_dispatch ("查询 users 行数") ("default") =
      .missingDbError (Srv.missing_db_message ("default")) :=
  (data_agent_missing_destination ("查询 users 行数") ("default")
    (by decide) (Or.inr rfl)).1

/-- C5: the transport middleware performs no analytics-session handling,
so two `/sse` connects create zero `UserSessionLog` rows (not one); and
`create_session` itself inserts a fresh row unconditionally, so even
calling it on both connects of the same `(client_ip, db)` pair would
create two rows — reference-counted duplicate-collapse exists nowhere. -/
theorem sse_session_never_created (st : Srv.AnalyticsState)
    (ip ua db : Option String) :
    (Srv.middleware_session_effect
        (Srv.middleware_session_effect Srv.initialAnalytics)).sessions.length = 0 ∧
    ((Srv.create_session ip ua db
        ((Srv.create_session ip ua db st).2)).2).sessions.length =
      st.sessions.length + 2 := by
  constructor
  · rfl
  · simp [Srv.create_session]

/-- C6 counterexample: the message `"connection timed out"` contains
`connection` but not `timeout`, so the claim demands
`DB_CONNECTION_ERROR`; the code classifies it as `DB_TIMEOUT` because it
also matches the bare substring `time`. -/
theorem db_error_time_substring_counterexample :
    SqlV.containsSub ("timeout").toList
        (SqlV.lowerL ("connection timed out").toList) = false ∧
    SqlV.containsSub ("connection").toList
        (SqlV.lowerL ("connection timed out").toList) = true ∧
    Tool.sqlToolErrorCode (.sqlAlchemyError ("connection timed out")) =
      some .DB_TIMEOUT ∧
    Tool.ErrorCode.DB_TIMEOUT ≠ Tool.ErrorCode.DB_CONNECTION_ERROR := by
  refine ⟨by decide, by decide, by decide, by decide⟩

/-- C6 (amended): on a database error the envelope code is `DB_TIMEOUT`
when the lowercased message contains `time` (hence for every message
containing `timeout`), else `DB_CONNECTION_ERROR` when it contains
`connection`, else `DB_QUERY_ERROR`; any non-database exception yields
`UNKNOWN_ERROR`. -/
theorem db_error_code_mapping (m : String) :
    (SqlV.containsSub ("time").toList (SqlV.lowerL m.toList) = true →
      Tool.sqlToolErrorCode (.sqlAlchemyError m) = some .DB_TIMEOUT) ∧
    (SqlV.containsSub ("time").toList (SqlV.lowerL m.toList) = false →
      SqlV.containsSub ("connection").toList (SqlV.lowerL m.toList) = true →
      Tool.sqlToolErrorCode (.sqlAlchemyError m) = some .DB_CONNECTION_ERROR) ∧
    (SqlV.containsSub ("time").toList (SqlV.lowerL m.toList) = false →
      SqlV.containsSub ("connection").toList (SqlV.lowerL m.toList) = false →
      Tool.sqlToolErrorCode (.sqlAlchemyError m) = some .DB_QUERY_ERROR) ∧
    Tool.sqlToolErrorCode (.otherError m) = some .UNKNOWN_ERROR := by
  have hsub : SqlV.containsSub ("time").toList (SqlV.lowerL m.toList) = false →
      SqlV.containsSub ("timeout").toList (SqlV.lowerL m.toList) = false := by
    intro h
    cases hc : SqlV.containsSub ("timeout").toList (SqlV.lowerL m.toList) with
    | false => rfl
    | true =>
        have : SqlV.containsSub ("time").toList (SqlV.lowerL m.toList) = true := by
          have he : ("timeout").toList = ("time").toList ++ ("out").toList := by decide
          exact containsSub_of_append _ _ _ (he ▸ hc)
        rw [this] at h
        exact absurd h (by simp)
  refine ⟨?_, ?_, ?_, rfl⟩
  · intro h
    show some (Tool.classify_db_error m) = some Tool.ErrorCode.DB_TIMEOUT
    unfold Tool.classify_db_error
    rw [h]
    simp
  · intro h1 h2
    show some (Tool.classify_db_error m) = some Tool.ErrorCode.DB_CONNECTION_ERROR
    unfold Tool.classify_db_error
    rw [h1, hsub h1, h2]
    simp
  · intro h1 h2
    show some (Tool.classify_db_error m) = some Tool.ErrorCode.DB_QUERY_ERROR
    unfold Tool.classify_db_error
    rw [h1, hsub h1, h2]
    simp

/-- C6 witness: the amended mapping applied at concrete messages. -/
theorem db_error_code_mapping_witness :
    Tool.sqlToolErrorCode (.sqlAlchemyError ("Lock wait timeout exceeded")) =
      some .DB_TIMEOUT ∧
    Tool.sqlToolErrorCode (.sqlAlchemyError ("Lost connection to MySQL server")) =
      some .DB_CONNECTION_ERROR ∧
    Tool.sqlToolErrorCode (.sqlAlchemyError ("Unknown column in field list")) =
      some .DB_QUERY_ERROR :=
  ⟨(db_error_code_mapping ("Lock wait timeout exceeded")).1 (by decide),
   (db_error_code_mapping ("Lost connection to MySQL server")).2.1 (by decide) (by decide),
   (db_error_code_mapping ("Unknown column in field list")).2.2.1 (by decide) (by decide)⟩

/-- C7 counterexample: `SELECT 1;` is a valid SELECT without `LIMIT`, yet
the executed text is `SELECT 1 LIMIT 5` — the trailing semicolon is
stripped first, so the text is not `s LIMIT k` as claimed. -/
theorem limit_injection_semicolon_counterexample :
    (SqlV.validate_sql ("SELECT 1;") true).1 = true ∧
    SqlV.containsSub ("LIMIT").toList
      (SqlV.upperL (SqlV.stripL ("SELECT 1;").toList)) = false ∧
    Tool.executedSqlText ("SELECT 1;") (some 5) = "SELECT 1 LIMIT 5" ∧
    Tool.executedSqlText ("SELECT 1;") (some 5) ≠ "SELECT 1;" ++ " LIMIT " ++ "5" := by
  refine ⟨by decide, by decide, by decide, by decide⟩

/-- C7 (amended): when the stripped statement does not contain `LIMIT`
(case-insensitively), the executed text is the stripped statement with
trailing semicolons removed, followed by ` LIMIT k` with `k` passed
through `sanitize_limit`; when it already contains `LIMIT`, the executed
text is the stripped statement unchanged; and `sanitize_limit` always
lands in `[1, 10000]`. -/
theorem limit_injection_text (sql : String) (k : Option Int) :
    (SqlV.containsSub ("LIMIT").toList (SqlV.upperL (SqlV.stripL sql.toList)) = false →
      Tool.executedSqlText sql k =
        String.mk (Tool.rstripSemis (SqlV.stripL sql.toList)) ++ " LIMIT " ++
          toString (SqlV.sanitize_limit k)) ∧
    (SqlV.containsSub ("LIMIT").toList (SqlV.upperL (SqlV.stripL sql.toList)) = true →
      Tool.executedSqlText sql k = String.mk (SqlV.stripL sql.toList)) ∧
    1 ≤ SqlV.sanitize_limit k ∧ SqlV.sanitize_limit k ≤ 10000 := by
  refine ⟨?_, ?_, ?_, ?_⟩
  · intro h
    unfold Tool.executedSqlText
    rw [h]
    simp
  · intro h
    unfold Tool.executedSqlText
    rw [h]
    simp
  · rcases k with _ | n
    · decide
    · unfold SqlV.sanitize_limit
      split <;> [decide; skip]
      split <;> [decide; omega]
  · rcases k with _ | n
    · decide
    · unfold SqlV.sanitize_limit
      split <;> [decide; skip]
      split <;> [decide; omega]

/-- C7 witness: the amended theorem applied at concrete statements. -/
theorem limit_injection_text_witness :
    Tool.executedSqlText ("SELECT id FROM t;") (some 20000) =
      "SELECT id FROM t LIMIT 10000" ∧
    Tool.executedSqlText ("SELECT x FROM t LIMIT 3") (some 5) =
      "SELECT x FROM t LIMIT 3" :=
  ⟨((limit_injection_text ("SELECT id FROM t;") (some 20000)).1 (by decide)).trans
      (by decide),
   ((limit_injection_text ("SELECT x FROM t LIMIT 3") (some 5)).2.1 (by decide)).trans
      (by decide)⟩

/-- C8 counterexample: the POST body of the knowledge tool carries only
the keys `query` and `mode` (no `top_k`), and the request timeout is
600 seconds, not 30. -/
theorem knowledge_request_counterexample :
    (Tool.knowledge_request ("repayment rate formula") ("mix") 5
        ("http://localhost:9621")).map (fun r => r.payload.map Prod.fst) =
      some ["query", "mode"] ∧
    (Tool.knowledge_request ("repayment rate formula") ("mix") 5
        ("http://localhost:9621")).map (fun r => r.timeoutSecs) = some 600 ∧
    (["query", "mode"] : List String) ≠ ["query", "mode", "top_k"] ∧
    (600 : Nat) ≠ 30 := by
  refine ⟨by decide, by decide, by decide, by decide⟩

/-- C8 (amended): for every non-blank query the knowledge tool builds a
single POST to `<url>/query` whose body is exactly
`{"query": query.strip(), "mode": mode}` with a 600-second timeout, and
the default mode is `mix`. -/
theorem knowledge_request_shape (q mode : String) (k : Int) (url : String)
    (h : (SqlV.stripL q.toList).isEmpty = false) :
    Tool.knowledge_request q mode k url =
      some { endpoint := Tool.rstripSlash url ++ "/query",
             payload := [("query", Tool.PVal.s (String.mk (SqlV.stripL q.toList))),
                         ("mode", Tool.PVal.s mode)],
             timeoutSecs := 600 } ∧
    Tool.KG_DEFAULT_MODE = "mix" := by
  constructor
  · unfold Tool.knowledge_request
    rw [h]
    simp
  · rfl

/-- C8 witness: the amended theorem applied at a concrete query. -/
theorem knowledge_request_shape_witness :
    Tool.knowledge_request ("如何计算放款金额") ("mix") 5 ("http://localhost:9621/") =
      some { endpoint := "http://localhost:9621/query",
             payload := [("query", Tool.PVal.s ("如何计算放款金额")),
                         ("mode", Tool.PVal.s ("mix"))],
             timeoutSecs := 600 } :=
  ((knowledge_request_shape ("如何计算放款金额") ("mix") 5 ("http://localhost:9621/")
      (by decide)).1).trans (by decide)

theorem applyEvents_append (mapping : String → Option Srv.ConnConfig)
    (l1 l2 : List Srv.ConnEvent) (g : Srv.ServerGlobals) :
    Srv.applyEvents mapping (l1 ++ l2) g =
      Srv.applyEvents mapping l2 (Srv.applyEvents mapping l1 g) := by
  induction l1 generalizing g with
  | nil => rfl
  | cons e rest ih => cases e <;> simp [Srv.applyEvents, ih]

theorem applyEvents_no_middleware (mapping : String → Option Srv.ConnConfig)
    (mid : List Srv.ConnEvent) (g : Srv.ServerGlobals)
    (h : ∀ e ∈ mid, Srv.isMiddlewareEvent e = false) :
    Srv.applyEvents mapping mid g = g := by
  induction mid with
  | nil => rfl
  | cons e rest ih =>
      cases e with
      | middleware c k =>
          have := h _ (List.mem_cons_self _ _)
          simp [Srv.isMiddlewareEvent] at this
      | request c =>
          exact ih (fun e he => h e (List.mem_cons_of_mem _ he))

theorem runEvents_split (mapping : String → Option Srv.ConnConfig)
    (pre post : List Srv.ConnEvent) (c : Nat) (g : Srv.ServerGlobals) :
    Srv.runEvents mapping (pre ++ .request c :: post) g =
      Srv.runEvents mapping pre g ++
        (c, (Srv.applyEvents mapping pre g).currentDbKey,
             (Srv.applyEvents mapping pre g).currentDbConfig) ::
          Srv.runEvents mapping post (Srv.applyEvents mapping pre g) := by
  induction pre generalizing g with
  | nil => simp [Srv.runEvents, Srv.applyEvents]
  | cons e rest ih => cases e <;> simp [Srv.runEvents, Srv.applyEvents, ih]

/-- C2 counterexample: with two live connections, the middleware
of connection 1 stores `db=x`, the middleware of connection 2 then stores `db=y`
into the same module-level globals, and the request served on connection
1 observes the destination and resolved tuple of connection 2. -/
theorem request_context_interference_counterexample :
    Srv.runEvents exInterferenceMapping
        [.middleware 1 ("x"), .middleware 2 ("y"), .request 1]
        Srv.initialGlobals = [(1, "y", some exCfgY)] ∧
    ("y" : String) ≠ "x" ∧ some exCfgY ≠ some exCfgX := by
  refine ⟨by decide, by decide, by decide⟩

/-- C2 (amended): the destination globals are last-writer-wins across the
whole worker — every request observes the key and tuple left by the most
recent middleware dispatch of any connection (first conjunct), so
isolation holds only when no middleware of another connection runs between
the own dispatch of a connection and its request (second conjunct). -/
theorem request_context_last_writer_wins
    (mapping : String → Option Srv.ConnConfig) (g : Srv.ServerGlobals)
    (pre mid post : List Srv.ConnEvent) (c : Nat) (k : String)
    (cfg : Srv.ConnConfig)
    (hmid : ∀ e ∈ mid, Srv.isMiddlewareEvent e = false)
    (hk : mapping k = some cfg) :
    (∀ (pre2 post2 : List Srv.ConnEvent) (c2 : Nat),
      Srv.runEvents mapping (pre2 ++ .request c2 :: post2) g =
        Srv.runEvents mapping pre2 g ++
          (c2, (Srv.applyEvents mapping pre2 g).currentDbKey,
               (Srv.applyEvents mapping pre2 g).currentDbConfig) ::
            Srv.runEvents mapping post2 (Srv.applyEvents mapping pre2 g)) ∧
    Srv.runEvents mapping (pre ++ .middleware c k :: (mid ++ .request c :: post)) g =
      Srv.runEvents mapping (pre ++ .middleware c k :: mid) g ++
        (c, k, some cfg) ::
          Srv.runEvents mapping post
            (Srv.applyEvents mapping (pre ++ .middleware c k :: mid) g) := by
  have hstate : ∀ g0 : Srv.ServerGlobals,
      Srv.applyEvents mapping (pre ++ .middleware c k :: mid) g0 =
        { currentDbKey := k, currentDbConfig := some cfg } := by
    intro g0
    have h1 : pre ++ Srv.ConnEvent.middleware c k :: mid =
        (pre ++ [Srv.ConnEvent.middleware c k]) ++ mid := by simp
    rw [h1, applyEvents_append, applyEvents_append]
    rw [applyEvents_no_middleware mapping mid _ hmid]
    simp [Srv.applyEvents, Srv.middleware_dispatch, hk]
  constructor
  · intro pre2 post2 c2
    exact runEvents_split mapping pre2 post2 c2 g
  · have h2 : pre ++ Srv.ConnEvent.middleware c k :: (mid ++ .request c :: post) =
        (pre ++ Srv.ConnEvent.middleware c k :: mid) ++ .request c :: post := by
      simp
    rw [h2, runEvents_split, hstate]

/-- C2 witness: the amended theorem applied at the concrete two-row
mapping with an empty interleaving window. -/
theorem request_context_last_writer_wins_witness :
    Srv.runEvents exInterferenceMapping
        ([] ++ .middleware 1 ("x") :: ([] ++ .request 1 :: [])) Srv.initialGlobals =
      Srv.runEvents exInterferenceMapping ([] ++ .middleware 1 ("x") :: [])
          Srv.initialGlobals ++
        (1, "x", some exCfgX) ::
          Srv.runEvents exInterferenceMapping []
            (Srv.applyEvents exInterferenceMapping
              ([] ++ .middleware 1 ("x") :: []) Srv.initialGlobals) :=
  (request_context_last_writer_wins exInterferenceMapping Srv.initialGlobals
      [] [] [] 1 ("x") exCfgX (by intro e he; cases he) (by decide)).2

theorem plan_step_pastSteps (o : Agent.AgentOracle) (s : Agent.PlanExecute) :
    (Agent.plan_step o s).pastSteps = s.pastSteps := by
  unfold Agent.plan_step
  cases o.plannerResult <;> rfl

theorem execute_step_pastSteps (o : Agent.AgentOracle) (n : Nat)
    (s : Agent.PlanExecute) :
    (Agent.execute_step o n s).pastSteps.length = s.pastSteps.length + 1 := by
  unfold Agent.execute_step
  split
  · simp
  · cases o.executorResult n <;> simp

theorem replan_step_pastSteps (o : Agent.AgentOracle) (n : Nat)
    (s : Agent.PlanExecute) :
    (Agent.replan_step o n s).pastSteps = s.pastSteps := by
  unfold Agent.replan_step
  split
  · rfl
  · rcases h : o.replannerResult n with _ | act
    · rfl
    · cases act <;> rfl

theorem replan_step_guard (o : Agent.AgentOracle) (n : Nat)
    (s : Agent.PlanExecute) (h : Agent.MAX_ITERATIONS ≤ s.pastSteps.length) :
    Agent.replan_step o n s =
      { s with response := some (.fallbackLimit,
          Agent.generate_fallback_response s Agent.maxIterReason) } := by
  unfold Agent.replan_step
  rw [if_pos h]

theorem agentLoop_spec (o : Agent.AgentOracle) :
    ∀ (fuel : Nat) (s : Agent.PlanExecute) (c : Nat),
      s.pastSteps.length = c → c < Agent.MAX_ITERATIONS →
      Agent.MAX_ITERATIONS - c ≤ fuel →
      ∃ sf, Agent.agentLoop o fuel s c = some (sf, sf.pastSteps.length) ∧
        sf.pastSteps.length ≤ Agent.MAX_ITERATIONS := by
  intro fuel
  induction fuel with
  | zero =>
      intro s c hc hlt hfuel
      omega
  | succ fuel ih =>
      intro s c hc hlt hfuel
      have hlen1 : (Agent.execute_step o c s).pastSteps.length = c + 1 := by
        rw [execute_step_pastSteps, hc]
      have hlen2 :
          (Agent.replan_step o c (Agent.execute_step o c s)).pastSteps.length = c + 1 := by
        rw [replan_step_pastSteps, hlen1]
      by_cases hend :
          Agent.shouldEnd (Agent.replan_step o c (Agent.execute_step o c s)) = true
      · refine ⟨Agent.replan_step o c (Agent.execute_step o c s), ?_, ?_⟩
        · simp only [Agent.agentLoop, hend, if_pos]
          rw [hlen2]
        · omega
      · have hc1 : c + 1 < Agent.MAX_ITERATIONS := by
          by_contra hge
          have hmax : Agent.MAX_ITERATIONS ≤ (Agent.execute_step o c s).pastSteps.length := by
            omega
          have := replan_step_guard o c (Agent.execute_step o c s) hmax
          rw [this] at hend
          simp [Agent.shouldEnd] at hend
        obtain ⟨sf, hrun, hbound⟩ :=
          ih (Agent.replan_step o c (Agent.execute_step o c s)) (c + 1) hlen2 hc1
            (by omega)
        refine ⟨sf, ?_, hbound⟩
        simp only [Agent.agentLoop, hend]
        simpa using hrun

/-- C1 counterexample: when the replanner answers with an empty `Plan`,
the controller ends with no `response` at all and `run_agent` returns the
fixed default retry string — neither a replanner `Response` nor a
fallback synthesized from `past_steps`. -/
theorem run_agent_empty_replan_counterexample :
    Agent.run_agent emptyReplanOracle ("统计订单量") =
      { answer := Agent.defaultAnswer, execCount := 1, finalResponse := none,
        pastStepsCount := 1, recursionLimitHit := false } ∧
    (∀ src text, Agent.defaultAnswer = text →
      (some (src, text) : Option (Agent.RespSource × String)) ≠ none) ∧
    (Agent.run_agent emptyReplanOracle ("统计订单量")).finalResponse = none := by
  refine ⟨by decide, ?_, by decide⟩
  intro src text _ h
  cases h

/-- C1 (amended): for every oracle and input the controller terminates
without ever hitting the framework recursion limit; the number of
executor invocations equals the final `len(past_steps)` and is at most
`MAX_ITERATIONS`; the answer is the final `response` text when one was
set (by the replanner, a fallback, or a planner error) and the fixed
default retry string otherwise; and once `len(past_steps)` has reached
`MAX_ITERATIONS` the replanner produces the fallback response without
consulting the LLM (its result is oracle-independent). -/
theorem run_agent_bounded_deliberation (o : Agent.AgentOracle) (input : String) :
    (Agent.run_agent o input).recursionLimitHit = false ∧
    (Agent.run_agent o input).execCount = (Agent.run_agent o input).pastStepsCount ∧
    (Agent.run_agent o input).execCount ≤ Agent.MAX_ITERATIONS ∧
    (Agent.run_agent o input).pastStepsCount ≤ Agent.MAX_ITERATIONS ∧
    ((Agent.run_agent o input).answer =
      Agent.respText (Agent.run_agent o input).finalResponse) ∧
    (∀ (o2 o3 : Agent.AgentOracle) (n2 n3 : Nat) (s : Agent.PlanExecute),
      Agent.MAX_ITERATIONS ≤ s.pastSteps.length →
      Agent.replan_step o2 n2 s = Agent.replan_step o3 n3 s ∧
      (Agent.replan_step o2 n2 s).response =
        some (.fallbackLimit, Agent.generate_fallback_response s Agent.maxIterReason)) := by
  have hguard : ∀ (o2 o3 : Agent.AgentOracle) (n2 n3 : Nat) (s : Agent.PlanExecute),
      Agent.MAX_ITERATIONS ≤ s.pastSteps.length →
      Agent.replan_step o2 n2 s = Agent.replan_step o3 n3 s ∧
      (Agent.replan_step o2 n2 s).response =
        some (.fallbackLimit, Agent.generate_fallback_response s Agent.maxIterReason) := by
    intro o2 o3 n2 n3 s h
    rw [replan_step_guard o2 n2 s h, replan_step_guard o3 n3 s h]
    exact ⟨rfl, rfl⟩
  have hmain : (Agent.run_agent o input).recursionLimitHit = false ∧
      (Agent.run_agent o input).execCount = (Agent.run_agent o input).pastStepsCount ∧
      (Agent.run_agent o input).pastStepsCount ≤ Agent.MAX_ITERATIONS ∧
      ((Agent.run_agent o input).answer =
        Agent.respText (Agent.run_agent o input).finalResponse) := by
    unfold Agent.run_agent
    split
    · refine ⟨rfl, ?_, ?_, rfl⟩
      · show (0 : Nat) = (Agent.plan_step o (Agent.initState input)).pastSteps.length
        rw [plan_step_pastSteps]
        rfl
      · show (Agent.plan_step o (Agent.initState input)).pastSteps.length ≤
          Agent.MAX_ITERATIONS
        rw [plan_step_pastSteps]
        exact Nat.zero_le _
    · have h0 : (Agent.plan_step o (Agent.initState input)).pastSteps.length = 0 := by
        rw [plan_step_pastSteps]
        rfl
      obtain ⟨sf, hrun, hbound⟩ :=
        agentLoop_spec o Agent.RECURSION_ITER_BUDGET
          (Agent.plan_step o (Agent.initState input)) 0 h0 (by decide) (by decide)
      split
      · rename_i sf2 n2 heq
        rw [hrun] at heq
        injection heq with heq1
        injection heq1 with heqs heqn
        subst heqs
        subst heqn
        exact ⟨rfl, rfl, hbound, rfl⟩
      · rename_i heq
        rw [hrun] at heq
        cases heq
  refine ⟨hmain.1, hmain.2.1, ?_, hmain.2.2.1, hmain.2.2.2, hguard⟩
  rw [hmain.2.1]
  exact hmain.2.2.1

/-- C1 witness: the amended theorem applied at a concrete oracle, plus
its iteration-cap clause applied at a saturated state. -/
theorem run_agent_bounded_deliberation_witness :
    (Agent.run_agent oneStepOracle ("查询 users 行数")).execCount ≤
      Agent.MAX_ITERATIONS ∧
    (Agent.replan_step oneStepOracle 3 fullIterState).response =
      some (.fallbackLimit,
        Agent.generate_fallback_response fullIterState Agent.maxIterReason) :=
  ⟨(run_agent_bounded_deliberation oneStepOracle ("查询 users 行数")).2.2.1,
   ((run_agent_bounded_deliberation oneStepOracle ("查询 users 行数")).2.2.2.2.2
      oneStepOracle oneStepOracle 3 3 fullIterState (by decide)).2⟩

theorem touchPool_keys (k : String) (t : Nat) (l : List Pool.PoolEntry) :
    Pool.poolKeys (Pool.touchPool k t l) = Pool.poolKeys l := by
  induction l with
  | nil => rfl
  | cons e rest ih =>
      unfold Pool.touchPool at ih ⊢
      unfold Pool.poolKeys at ih ⊢
      simp only [List.map_cons, List.cons.injEq]
      exact ⟨by split <;> rfl, ih⟩

theorem insertByLastUsed_perm (e : Pool.PoolEntry) (l : List Pool.PoolEntry) :
    (Pool.insertByLastUsed e l).Perm (e :: l) := by
  induction l with
  | nil => exact List.Perm.refl _
  | cons x xs ih =>
      unfold Pool.insertByLastUsed
      split
      · exact List.Perm.refl _
      · exact (ih.cons x).trans (List.Perm.swap e x xs)

theorem sortByLastUsed_perm (l : List Pool.PoolEntry) :
    (Pool.sortByLastUsed l).Perm l := by
  induction l with
  | nil => exact List.Perm.refl _
  | cons x xs ih =>
      unfold Pool.sortByLastUsed
      exact (insertByLastUsed_perm x (Pool.sortByLastUsed xs)).trans (ih.cons x)

theorem insertByLastUsed_sorted (e : Pool.PoolEntry) (l : List Pool.PoolEntry)
    (h : List.Pairwise (fun a b => a.lastUsed ≤ b.lastUsed) l) :
    List.Pairwise (fun a b => a.lastUsed ≤ b.lastUsed) (Pool.insertByLastUsed e l) := by
  induction l with
  | nil => simp [Pool.insertByLastUsed]
  | cons x xs ih =>
      rcases List.pairwise_cons.mp h with ⟨hx, hxs⟩
      unfold Pool.insertByLastUsed
      split
      · rename_i hle
        refine List.pairwise_cons.mpr ⟨?_, h⟩
        intro b hb
        rcases List.mem_cons.mp hb with rfl | hb2
        · exact hle
        · exact le_trans hle (hx b hb2)
      · rename_i hgt
        refine List.pairwise_cons.mpr ⟨?_, ih hxs⟩
        intro b hb
        have hmem : b ∈ e :: xs := (insertByLastUsed_perm e xs).mem_iff.mp hb
        rcases List.mem_cons.mp hmem with rfl | hb2
        · omega
        · exact hx b hb2

theorem sortByLastUsed_sorted (l : List Pool.PoolEntry) :
    List.Pairwise (fun a b => a.lastUsed ≤ b.lastUsed) (Pool.sortByLastUsed l) := by
  induction l with
  | nil => simp [Pool.sortByLastUsed]
  | cons x xs ih =>
      unfold Pool.sortByLastUsed
      exact insertByLastUsed_sorted x _ ih

theorem evict_old_pools_spec (maxSize : Nat) (l : List Pool.PoolEntry)
    (hnd : (Pool.poolKeys l).Nodup) (hlen : maxSize < l.length) :
    (Pool.evict_old_pools maxSize l).length = maxSize ∧
    (∀ e ∈ l, e ∉ Pool.evict_old_pools maxSize l →
      ∀ f ∈ Pool.evict_old_pools maxSize l, e.lastUsed ≤ f.lastUsed) := by
  have hperm := sortByLastUsed_perm l
  have hndmap : (List.map (fun e : Pool.PoolEntry => e.key) l).Nodup := hnd
  have hndl : l.Nodup := List.Nodup.of_map _ hndmap
  have hnds : (Pool.sortByLastUsed l).Nodup := hperm.nodup_iff.mpr hndl
  have hndk : (List.map (fun e : Pool.PoolEntry => e.key)
      (Pool.sortByLastUsed l)).Nodup :=
    (hperm.map (fun e => e.key)).nodup_iff.mpr hndmap
  have hsplit :
      (Pool.sortByLastUsed l).take (l.length - maxSize) ++
        (Pool.sortByLastUsed l).drop (l.length - maxSize) = Pool.sortByLastUsed l :=
    List.take_append_drop _ _
  have hdisj :
      ((Pool.sortByLastUsed l).take (l.length - maxSize)).Disjoint
        ((Pool.sortByLastUsed l).drop (l.length - maxSize)) := by
    have h2 := hnds
    rw [← hsplit] at h2
    exact (List.nodup_append.mp h2).2.2
  have hA : ∀ e ∈ (Pool.sortByLastUsed l).take (l.length - maxSize),
      (Pool.evictVictims maxSize l).contains e.key = true := by
    intro e he
    apply List.elem_iff.mpr
    unfold Pool.evictVictims Pool.poolKeys
    exact List.mem_map_of_mem _ he
  have hB : ∀ f ∈ (Pool.sortByLastUsed l).drop (l.length - maxSize),
      (Pool.evictVictims maxSize l).contains f.key = false := by
    intro f hf
    cases hc : (Pool.evictVictims maxSize l).contains f.key with
    | false => rfl
    | true =>
        exfalso
        have hmem : f.key ∈ Pool.evictVictims maxSize l := List.elem_iff.mp hc
        unfold Pool.evictVictims Pool.poolKeys at hmem
        rcases List.mem_map.mp hmem with ⟨a, ha, hak⟩
        have has : a ∈ Pool.sortByLastUsed l := by
          rw [← hsplit]
          exact List.mem_append.mpr (Or.inl ha)
        have hfs : f ∈ Pool.sortByLastUsed l := by
          rw [← hsplit]
          exact List.mem_append.mpr (Or.inr hf)
        have hae : a = f := List.inj_on_of_nodup_map hndk has hfs hak
        subst hae
        exact hdisj ha hf
  have hfil :
      List.filter (fun e => !((Pool.evictVictims maxSize l).contains e.key))
          (Pool.sortByLastUsed l) =
        (Pool.sortByLastUsed l).drop (l.length - maxSize) := by
    conv_lhs => rw [← hsplit]
    rw [List.filter_append,
        List.filter_eq_nil_iff.mpr (by
          intro a ha h
          have hb : (!((Pool.evictVictims maxSize l).contains a.key)) = true := h
          rw [hA a ha] at hb
          simp at hb),
        List.filter_eq_self.mpr (by
          intro a ha
          show (!((Pool.evictVictims maxSize l).contains a.key)) = true
          rw [hB a ha]
          rfl)]
    simp
  have hevict : Pool.evict_old_pools maxSize l =
      List.filter (fun e => !((Pool.evictVictims maxSize l).contains e.key)) l := by
    unfold Pool.evict_old_pools
    rw [if_neg (by omega)]
  have hlenf :
      (List.filter (fun e => !((Pool.evictVictims maxSize l).contains e.key)) l).length
        = maxSize := by
    rw [← (hperm.filter _).length_eq, hfil, List.length_drop, hperm.length_eq]
    omega
  constructor
  · rw [hevict]
    exact hlenf
  · intro e he hev f hf
    rw [hevict] at hev hf
    have hce : (Pool.evictVictims maxSize l).contains e.key = true := by
      cases hc : (Pool.evictVictims maxSize l).contains e.key with
      | true => rfl
      | false =>
          refine absurd (List.mem_filter.mpr ⟨he, ?_⟩) hev
          show (!((Pool.evictVictims maxSize l).contains e.key)) = true
          rw [hc]
          rfl
    have hpf := (List.mem_filter.mp hf).2
    have hfl := (List.mem_filter.mp hf).1
    have hemem : e ∈ (Pool.sortByLastUsed l).take (l.length - maxSize) := by
      have hkmem : e.key ∈ Pool.evictVictims maxSize l := List.elem_iff.mp hce
      unfold Pool.evictVictims Pool.poolKeys at hkmem
      rcases List.mem_map.mp hkmem with ⟨a, ha, hak⟩
      have hes : e ∈ Pool.sortByLastUsed l := hperm.mem_iff.mpr he
      have has : a ∈ Pool.sortByLastUsed l := by
        rw [← hsplit]
        exact List.mem_append.mpr (Or.inl ha)
      have hae : a = e := List.inj_on_of_nodup_map hndk has hes hak
      exact hae ▸ ha
    have hfd : f ∈ (Pool.sortByLastUsed l).drop (l.length - maxSize) := by
      have hfs : f ∈ Pool.sortByLastUsed l := hperm.mem_iff.mpr hfl
      rw [← hsplit] at hfs
      rcases List.mem_append.mp hfs with hft | hfd
      · exfalso
        have hpf2 : (!((Pool.evictVictims maxSize l).contains f.key)) = true := hpf
        rw [hA f hft] at hpf2
        simp at hpf2
      · exact hfd
    have hp2 : List.Pairwise (fun a b => a.lastUsed ≤ b.lastUsed)
        ((Pool.sortByLastUsed l).take (l.length - maxSize) ++
          (Pool.sortByLastUsed l).drop (l.length - maxSize)) := by
      rw [hsplit]
      exact sortByLastUsed_sorted l
    exact (List.pairwise_append.mp hp2).2.2 e hemem f hfd

theorem get_engine_inv (maxSize : Nat) (k : String) (st : Pool.PoolState)
    (hnd : (Pool.poolKeys st.pools).Nodup)
    (hb : st.pools.length ≤ maxSize + 1) :
    (Pool.poolKeys (Pool.get_engine maxSize k st).pools).Nodup ∧
    (Pool.get_engine maxSize k st).pools.length ≤ maxSize + 1 := by
  unfold Pool.get_engine
  by_cases hfind : Pool.findPool k st.pools = true
  · rw [if_pos hfind]
    constructor
    · rw [touchPool_keys]
      exact hnd
    · show (Pool.touchPool k st.clock st.pools).length ≤ maxSize + 1
      unfold Pool.touchPool
      rw [List.length_map]
      exact hb
  · have hnotmem : k ∉ Pool.poolKeys st.pools := by
      intro hmem
      unfold Pool.poolKeys at hmem
      rcases List.mem_map.mp hmem with ⟨e, he, hek⟩
      apply hfind
      unfold Pool.findPool
      exact List.any_eq_true.mpr ⟨e, he, by simp [hek]⟩
    rw [if_neg hfind]
    by_cases hsz : st.pools.length < maxSize
    · rw [if_pos hsz]
      constructor
      · show (Pool.poolKeys (st.pools ++ [⟨k, st.clock⟩])).Nodup
        unfold Pool.poolKeys
        rw [List.map_append]
        refine List.nodup_append.mpr ⟨hnd, List.nodup_singleton _, ?_⟩
        intro a ha hb2
        simp only [List.map_cons, List.map_nil, List.mem_singleton] at hb2
        subst hb2
        exact hnotmem ha
      · simp only [List.length_append, List.length_singleton]
        omega
    · rw [if_neg hsz]
      have hsub : (Pool.evict_old_pools maxSize st.pools).Sublist st.pools := by
        unfold Pool.evict_old_pools
        split
        · exact List.Sublist.refl _
        · exact List.filter_sublist _
      have hndk : (Pool.poolKeys (Pool.evict_old_pools maxSize st.pools)).Nodup := by
        unfold Pool.poolKeys
        exact List.Nodup.sublist (List.Sublist.map _ hsub) hnd
      have hnotmem2 : k ∉ Pool.poolKeys (Pool.evict_old_pools maxSize st.pools) := by
        intro hmem
        apply hnotmem
        unfold Pool.poolKeys at hmem ⊢
        exact (List.Sublist.map (fun e => e.key) hsub).mem hmem
      constructor
      · show (Pool.poolKeys
          (Pool.evict_old_pools maxSize st.pools ++ [⟨k, st.clock⟩])).Nodup
        unfold Pool.poolKeys
        rw [List.map_append]
        refine List.nodup_append.mpr ⟨hndk, List.nodup_singleton _, ?_⟩
        intro a ha hb2
        simp only [List.map_cons, List.map_nil, List.mem_singleton] at hb2
        subst hb2
        exact hnotmem2 ha
      · show (Pool.evict_old_pools maxSize st.pools ++
            [(⟨k, st.clock⟩ : Pool.PoolEntry)]).length ≤ maxSize + 1
        rw [List.length_append, List.length_singleton]
        by_cases hgt : maxSize < st.pools.length
        · have := (evict_old_pools_spec maxSize st.pools hnd hgt).1
          omega
        · have : Pool.evict_old_pools maxSize st.pools = st.pools := by
            unfold Pool.evict_old_pools
            rw [if_pos (by omega)]
          rw [this]
          omega

theorem runGetEngines_inv (maxSize : Nat) (keys : List String) :
    (Pool.poolKeys (Pool.runGetEngines maxSize keys).pools).Nodup ∧
    (Pool.runGetEngines maxSize keys).pools.length ≤ maxSize + 1 := by
  have hgen : ∀ (ks : List String) (st : Pool.PoolState),
      (Pool.poolKeys st.pools).Nodup → st.pools.length ≤ maxSize + 1 →
      (Pool.poolKeys (ks.foldl (fun s k => Pool.get_engine maxSize k s) st).pools).Nodup ∧
      (ks.foldl (fun s k => Pool.get_engine maxSize k s) st).pools.length ≤ maxSize + 1 := by
    intro ks
    induction ks with
    | nil => intro st h1 h2; exact ⟨h1, h2⟩
    | cons k rest ih =>
        intro st h1 h2
        have hstep := get_engine_inv maxSize k st h1 h2
        exact ih _ hstep.1 hstep.2
  exact hgen keys Pool.initialPoolState List.nodup_nil (by simp [Pool.initialPoolState])

set_option maxRecDepth 20000 in
/-- C4 counterexample: fifty-one `get_engine` calls with pairwise
distinct destinations leave the registry holding 51 entries — one more
than `DB_POOL_MAX_SIZE` — because `_evict_old_pools` declines to evict
while the registry is exactly at the cap and the new engine is then
inserted regardless. -/
theorem pool_registry_cap_exceeded_counterexample :
    (Pool.runGetEngines Pool.DB_POOL_MAX_SIZE fiftyOnePoolKeys).pools.length = 51 ∧
    Pool.DB_POOL_MAX_SIZE < 51 := by
  constructor
  · decide
  · decide

/-- C4 (amended): after any sequence of `get_engine` calls the registry
holds at most `DB_POOL_MAX_SIZE + 1` entries (not `DB_POOL_MAX_SIZE`);
and whenever `_evict_old_pools` does evict (registry strictly above the
cap, keys distinct), the `last_used` of every evicted entry is at most
the `last_used` of every survivor — the evicted entries are the least recently
used. -/
theorem pool_registry_bound_and_lru (maxSize : Nat) (keys : List String)
    (l : List Pool.PoolEntry) (e f : Pool.PoolEntry)
    (hnd : (Pool.poolKeys l).Nodup) (hlen : maxSize < l.length)
    (he : e ∈ l) (hev : e ∉ Pool.evict_old_pools maxSize l)
    (hf : f ∈ Pool.evict_old_pools maxSize l) :
    (Pool.runGetEngines maxSize keys).pools.length ≤ maxSize + 1 ∧
    e.lastUsed ≤ f.lastUsed :=
  ⟨(runGetEngines_inv maxSize keys).2,
   (evict_old_pools_spec maxSize l hnd hlen).2 e he hev f hf⟩

/-- C4 witness: the amended theorem applied at a cap of one and a
three-entry registry. -/
theorem pool_registry_bound_and_lru_witness :
    (Pool.runGetEngines 1 ["k1", "k2"]).pools.length ≤ 2 ∧
    (⟨"b", 3⟩ : Pool.PoolEntry).lastUsed ≤ (⟨"c", 7⟩ : Pool.PoolEntry).lastUsed :=
  pool_registry_bound_and_lru 1 ["k1", "k2"] lruWitnessPools ⟨"b", 3⟩ ⟨"c", 7⟩
    (by decide) (by decide) (by decide) (by decide) (by decide)

theorem normNewlines_ne_nil (l : List Char) (h : l ≠ []) :
    SqlV.normNewlines l ≠ [] := by
  induction l with
  | nil => exact absurd rfl h
  | cons c rest ih =>
      unfold SqlV.normNewlines
      by_cases hc : c = '\r'
      · rw [if_pos hc]
        by_cases hh : rest.head? = some '\n'
        · rw [if_pos hh]
          simp only [List.nil_append]
          apply ih
          intro h0
          rw [h0] at hh
          cases hh
        · rw [if_neg hh]
          simp
      · rw [if_neg hc]
        simp

theorem check_for_injection_true_of_banned (sql : List Char)
    (h : SqlV.hasDangerousKeyword sql = true) :
    (SqlV.check_for_injection sql).1 = true := by
  unfold SqlV.check_for_injection
  split
  · rfl
  · split
    · rfl
    · rcases List.any_eq_true.mp h with ⟨kw, hkw, hp⟩
      cases hfind : SqlV.DANGEROUS_KEYWORDS.find?
          (fun kw => SqlV.containsWord kw.toList (SqlV.upperL sql)) with
      | some kw2 =>
          rfl
      | none =>
          exact absurd hp (List.find?_eq_none.mp hfind kw hkw)

theorem check_for_injection_true_of_disallowed (sql : List Char)
    (h1 : SqlV.allowedStart sql = false)
    (h2 : SqlV.leadingWordExists (SqlV.sqlNormalizedUpper sql) = true) :
    (SqlV.check_for_injection sql).1 = true := by
  unfold SqlV.check_for_injection
  split
  · rfl
  · split
    · rfl
    · rename_i hcond
      exact absurd (by rw [h1, h2]; rfl) hcond

theorem validate_sql_false_of_injection_true (s : String)
    (h : (SqlV.check_for_injection (SqlV.normalize_sql s.toList)).1 = true) :
    (SqlV.validate_sql s true).1 = false := by
  unfold SqlV.validate_sql
  by_cases h1 : (s.toList.isEmpty || (SqlV.stripL s.toList).isEmpty) = true
  · rw [if_pos h1]
  · rw [if_neg h1]
    by_cases h2 : (SqlV.normalize_sql s.toList).isEmpty = true
    · rw [if_pos h2]
    · rw [if_neg h2]
      by_cases h3 : (!(SqlV.check_sql_structure (SqlV.normalize_sql s.toList)).1) = true
      · rw [if_pos h3]
      · rw [if_neg h3]
        rw [if_pos h]

theorem validate_sql_true_of_clean (s : String)
    (hne : (SqlV.stripL s.toList).isEmpty = false)
    (hpar : SqlV.countChar '(' (SqlV.normalize_sql s.toList) =
            SqlV.countChar ')' (SqlV.normalize_sql s.toList))
    (hq : SqlV.countChar '\'' (SqlV.normalize_sql s.toList) % 2 = 0)
    (hsemi : ((SqlV.normalize_sql s.toList).contains ';' &&
              !(SqlV.endsWithSemicolon (SqlV.normalize_sql s.toList))) = false)
    (hinj : SqlV.hasInjectionShape (SqlV.normalize_sql s.toList) = false)
    (hstart : SqlV.allowedStart (SqlV.normalize_sql s.toList) = true)
    (hban : SqlV.hasDangerousKeyword (SqlV.normalize_sql s.toList) = false)
    (hfn : SqlV.dangerous_functions.all
        (fun f => !(SqlV.containsSub f.toList
          (SqlV.upperL (SqlV.normalize_sql s.toList)))) = true)
    (hlen : (SqlV.normalize_sql s.toList).length ≤ 10000)
    (hdepth : SqlV.countChar '(' (SqlV.normalize_sql s.toList) ≤ 50) :
    SqlV.validate_sql s true = (true, "") := by
  have hstripne : SqlV.stripL s.toList ≠ [] := List.isEmpty_eq_false.mp hne
  have hsne : s.toList ≠ [] := by
    intro h0
    apply hstripne
    rw [h0]
    rfl
  have hnorm_ne : SqlV.normalize_sql s.toList ≠ [] := by
    unfold SqlV.normalize_sql
    rw [if_neg (by
      intro hemp
      exact hsne (List.isEmpty_iff.mp hemp))]
    exact normNewlines_ne_nil _ hstripne
  have hstructure :
      SqlV.check_sql_structure (SqlV.normalize_sql s.toList) = (true, "") := by
    unfold SqlV.check_sql_structure
    rw [if_neg (fun hc => hc hpar), if_neg (fun hc => hc hq),
        if_neg (by rw [hsemi]; simp)]
  have hfind_ban : SqlV.DANGEROUS_KEYWORDS.find?
      (fun kw => SqlV.containsWord kw.toList
        (SqlV.upperL (SqlV.normalize_sql s.toList))) = none := by
    apply List.find?_eq_none.mpr
    intro kw hkw
    have := List.any_eq_false.mp hban kw hkw
    simpa using this
  have hinjres :
      SqlV.check_for_injection (SqlV.normalize_sql s.toList) = (false, "") := by
    unfold SqlV.check_for_injection
    rw [if_neg (by rw [hinj]; simp), if_neg (by rw [hstart]; simp), hfind_ban]
  have hfind_fn : SqlV.dangerous_functions.find?
      (fun f => SqlV.containsSub f.toList
        (SqlV.upperL (SqlV.normalize_sql s.toList))) = none := by
    apply List.find?_eq_none.mpr
    intro f hf
    have := List.all_eq_true.mp hfn f hf
    simpa using this
  have hstrict : SqlV.strictChecks (SqlV.normalize_sql s.toList) = (true, "") := by
    unfold SqlV.strictChecks
    rw [hfind_fn]
    show (if (SqlV.normalize_sql s.toList).length > 10000 then _
          else if SqlV.countChar '(' (SqlV.normalize_sql s.toList) > 50 then _
          else ((true, "") : Bool × String)) = (true, "")
    rw [if_neg (by omega), if_neg (by omega)]
  have hempty1 : s.toList.isEmpty = false := by
    cases hh : s.toList with
    | nil => exact absurd hh hsne
    | cons c t => rfl
  have hempty2 : (SqlV.normalize_sql s.toList).isEmpty = false := by
    cases hh : SqlV.normalize_sql s.toList with
    | nil => exact absurd hh hnorm_ne
    | cons c t => rfl
  unfold SqlV.validate_sql
  rw [if_neg (by rw [hempty1, hne]; simp),
      if_neg (by rw [hempty2]; simp),
      if_neg (by rw [hstructure]; simp),
      if_neg (by rw [hinjres]; simp),
      if_pos rfl]
  exact hstrict

/-- C3 counterexample: `SELECT (1` begins with `SELECT`, contains no
banned keyword and has balanced quotes, yet `validate_sql` rejects it
(unbalanced parentheses) — the acceptance direction of the claim fails. -/
theorem validate_sql_acceptance_counterexample :
    SqlV.startsWithL ("SELECT").toList
      (SqlV.sqlNormalizedUpper (SqlV.normalize_sql ("SELECT (1").toList)) = true ∧
    SqlV.hasDangerousKeyword (SqlV.normalize_sql ("SELECT (1").toList) = false ∧
    SqlV.countChar '\'' (SqlV.normalize_sql ("SELECT (1").toList) % 2 = 0 ∧
    (SqlV.validate_sql ("SELECT (1") true).1 = false := by
  refine ⟨by decide, by decide, by decide, by decide⟩

/-- C3 (amended): `validate_sql` in strict mode rejects every statement
containing a banned keyword as a word, and every statement that does not
start with `SELECT`/`WITH` but begins (after spaces and opening
parentheses) with a word character; it accepts a statement once it starts
with `SELECT`/`WITH`, contains no banned keyword, no injection-shaped
pattern, has balanced parentheses, an even number of single quotes, no
interior semicolon, no dangerous-function substring, length at most
10000, and at most 50 opening parentheses. -/
theorem validate_sql_characterization (s : String) :
    (SqlV.hasDangerousKeyword (SqlV.normalize_sql s.toList) = true →
      (SqlV.validate_sql s true).1 = false) ∧
    (SqlV.allowedStart (SqlV.normalize_sql s.toList) = false →
     SqlV.leadingWordExists
        (SqlV.sqlNormalizedUpper (SqlV.normalize_sql s.toList)) = true →
      (SqlV.validate_sql s true).1 = false) ∧
    ((SqlV.stripL s.toList).isEmpty = false →
     SqlV.countChar '(' (SqlV.normalize_sql s.toList) =
        SqlV.countChar ')' (SqlV.normalize_sql s.toList) →
     SqlV.countChar '\'' (SqlV.normalize_sql s.toList) % 2 = 0 →
     ((SqlV.normalize_sql s.toList).contains ';' &&
        !(SqlV.endsWithSemicolon (SqlV.normalize_sql s.toList))) = false →
     SqlV.hasInjectionShape (SqlV.normalize_sql s.toList) = false →
     SqlV.allowedStart (SqlV.normalize_sql s.toList) = true →
     SqlV.hasDangerousKeyword (SqlV.normalize_sql s.toList) = false →
     SqlV.dangerous_functions.all
        (fun f => !(SqlV.containsSub f.toList
          (SqlV.upperL (SqlV.normalize_sql s.toList)))) = true →
     (SqlV.normalize_sql s.toList).length ≤ 10000 →
     SqlV.countChar '(' (SqlV.normalize_sql s.toList) ≤ 50 →
      SqlV.validate_sql s true = (true, "")) := by
  refine ⟨?_, ?_, ?_⟩
  · intro h
    exact validate_sql_false_of_injection_true s
      (check_for_injection_true_of_banned _ h)
  · intro h1 h2
    exact validate_sql_false_of_injection_true s
      (check_for_injection_true_of_disallowed _ h1 h2)
  · intro hne hpar hq hsemi hinj hstart hban hfn hlen hdepth
    exact validate_sql_true_of_clean s hne hpar hq hsemi hinj hstart hban hfn
      hlen hdepth

/-- C3 witness: the amended theorem applied at three concrete
statements. -/
theorem validate_sql_characterization_witness :
    (SqlV.validate_sql ("DROP TABLE users") true).1 = false ∧
    (SqlV.validate_sql ("SHUTDOWN now") true).1 = false ∧
    SqlV.validate_sql ("SELECT name FROM users WHERE id = 1") true = (true, "") :=
  ⟨(validate_sql_characterization ("DROP TABLE users")).1 (by decide),
   (validate_sql_characterization ("SHUTDOWN now")).2.1 (by decide) (by decide),
   (validate_sql_characterization ("SELECT name FROM users WHERE id = 1")).2.2
     (by decide) (by decide) (by decide) (by decide) (by decide) (by decide)
     (by decide) (by decide) (by decide) (by decide)⟩
